import Mathlib

set_option maxRecDepth 8000

/-!
Verification of the GraphRAG query/ingest core of the `mai_lection_1c_platform`
repository (`src/term2/lection6/rag-service/graph_rag.py`) together with the
prompt-strictness override of the LightRAG service
(`src/term2/lection06/lightrag-service/app.py`).

The Python code is shallowly embedded as follows.

* Python strings are Lean `String`s; the character-level operations used by the
  code (`str.lower`, `str.strip`, slicing, `.replace("'", "''")`, substring
  tests with `in`) are modelled char-wise on `String.data`.
* SQL floats and pgvector similarities are modelled as `ℚ`.  The pgvector
  cosine-distance operator `<=>` is an external database primitive, so it is a
  parameter `dist : List ℚ → List ℚ → ℚ` of the retrieval functions; the code
  computes similarity as `1 - dist`.
* The three network backends (embedding endpoint, chat-completion endpoint,
  Apache AGE graph query) are suspension points that either produce a value or
  raise; they are modelled as `Except String _` valued inputs.
* The documents table plus the graph-side tables are a `DB` record; a SQL
  statement becomes a pure function on it.  `session.commit`/`rollback`
  semantics are modelled by returning either the updated `DB` (commit) or the
  unchanged input `DB` (rollback) alongside the `Except` outcome.
* The `LIMIT` clauses become `List.take`, `ORDER BY ... <=> ...` becomes a
  stable `List.mergeSort` on the distance order, and the `WHERE` clauses become
  `List.filterMap`.
-/

/-! ### Character-level string helpers (Python string primitives) -/

/-- Python `needle in haystack` substring test. -/
def containsSub (needle haystack : String) : Bool :=
  haystack.data.tails.any (fun t => needle.data.isPrefixOf t)

/-- Python `str.lower()`, char-wise. -/
def pyLower (s : String) : String := ⟨s.data.map Char.toLower⟩

/-- Python `str.strip()`: drop whitespace from both ends. -/
def pyStrip (s : String) : String :=
  ⟨((s.data.dropWhile Char.isWhitespace).reverse.dropWhile Char.isWhitespace).reverse⟩

/-- Python slicing `s[:n]`, char-wise. -/
def pyTake (s : String) (n : Nat) : String := ⟨s.data.take n⟩

/-- The code's `content.replace("'", "''")` single-quote escaping. -/
def escapeQuotes (s : String) : String :=
  ⟨s.data.flatMap (fun c => if c = '\'' then ['\'', '\''] else [c])⟩

/-- Python `"sep".join(parts)`. -/
def joinSep (sep : String) : List String → String
  | [] => ""
  | [s] => s
  | s :: rest => s ++ (sep ++ joinSep sep rest)

/-- Metadata mappings (`dict`/`jsonb`), restricted to the string-valued keys the
core reads. -/
abbrev MD := List (String × String)

/-- Python `metadata.get(key, dflt)`. -/
def mdGet (md : MD) (key dflt : String) : String :=
  match md.find? (fun p => p.1 == key) with
  | some p => p.2
  | none => dflt

/-! ### Data model: documents table, graph tables, rows -/

/-- A row of the `documents` table
(`id, content, embedding vector, metadata jsonb`). -/
structure Document where
  id : Nat
  content : String
  embedding : Option (List ℚ)
  metadata : MD
deriving DecidableEq, Repr

/-- A vertex created by the `CREATE (d:Document {...})` Cypher statement of
`_create_graph_nodes`. -/
structure GraphNode where
  doc_id : Nat
  preview : String
  source : String
  length : Nat
deriving DecidableEq, Repr

/-- A row of the `document_nodes` relational table written by
`_create_graph_nodes`. -/
structure DocumentNodeRow where
  document_id : Nat
  node_id : Nat
  node_type : String
  properties : MD
deriving DecidableEq, Repr

/-- The persistent state the core touches: the pgvector `documents` table
(with its id sequence) and the graph-side stores. -/
structure DB where
  documents : List Document
  nextId : Nat
  graphNodes : List GraphNode
  documentNodes : List DocumentNodeRow
deriving DecidableEq, Repr

/-- One row of the `SELECT id, content, metadata, 1 - (embedding <=> q) as
similarity` result set in `GraphRAG.query`. -/
structure Row where
  id : Nat
  content : String
  metadata : MD
  similarity : ℚ
deriving DecidableEq, Repr

/-- One entry of the `sources` list of a query result. -/
structure SourceEntry where
  id : Nat
  content : String
  similarity : ℚ
  metadata : MD
deriving DecidableEq, Repr

/-- The summary dict built by `_get_graph_context`. -/
structure GraphContext where
  nodes_found : Nat
  has_relationships : Bool
  sample_nodes : Nat
deriving DecidableEq, Repr

/-- One row of the Cypher `RETURN d, type(r) as rel_type, related` result set;
the code only inspects whether `rel_type` (`row[1]`) is non-null. -/
structure GraphRow where
  rel_type : Option String
deriving DecidableEq, Repr

/-- The dict returned by `GraphRAG.query`. -/
structure QueryResult where
  answer : String
  sources : List SourceEntry
  graph_context : Option GraphContext
deriving DecidableEq, Repr

/-- A query result together with the observable fact whether the
chat-completion backend was invoked for it. -/
structure QueryOutput where
  result : QueryResult
  llm_called : Bool
deriving DecidableEq, Repr

namespace GraphRAG

/-- `GraphRAG._get_embedding`: on backend failure the caught exception is
re-raised as `Exception("Не удалось получить эмбеддинг: ...")`; on success the
embedding is returned, together with the flag telling whether the
dimension-mismatch warning `len(embedding) != self.embedding_dimensions` was
logged. -/
def get_embedding (dims : Nat) (embedRes : Except String (List ℚ)) :
    Except String (List ℚ × Bool) :=
  match embedRes with
  | .error e => .error ("Не удалось получить эмбеддинг: " ++ e)
  | .ok embedding => .ok (embedding, embedding.length != dims)

/-- `GraphRAG._create_graph_nodes`, success path: one `Document` vertex via
Cypher plus one `document_nodes` row. -/
def create_graph_nodes (db : DB) (doc_id : Nat) (content : String)
    (metadata : MD) : DB :=
  let preview := escapeQuotes (pyTake content 200)
  let source := escapeQuotes (mdGet metadata "source" "unknown")
  { db with
    graphNodes := db.graphNodes ++ [⟨doc_id, preview, source, content.data.length⟩],
    documentNodes := db.documentNodes ++
      [⟨doc_id, doc_id, "Document", [("source", mdGet metadata "source" "unknown")]⟩] }

/-- `GraphRAG.ingest_document`.  `embedRes` is the outcome of the embedding
backend call, `graphFail` tells whether the graph-store statements of
`_create_graph_nodes` raise (that exception is swallowed inside
`_create_graph_nodes`).  Returns the database state after
commit/rollback together with the returned id or the raised error. -/
def ingest_document (dims : Nat) (embedRes : Except String (List ℚ))
    (graphFail : Bool) (db : DB) (content : String) (metadata : Option MD) :
    DB × Except String Nat :=
  match get_embedding dims embedRes with
  | .error e => (db, .error e)
  | .ok (embedding, _dimWarn) =>
      let md := metadata.getD []
      let doc_id := db.nextId
      let db1 : DB :=
        { db with
          documents := db.documents ++ [⟨doc_id, content, some embedding, md⟩],
          nextId := db.nextId + 1 }
      let db2 := if graphFail then db1 else create_graph_nodes db1 doc_id content md
      (db2, .ok doc_id)

/-- The similarity `SELECT` of `GraphRAG.query`: rows with non-null embedding
whose similarity `1 - (embedding <=> q)` reaches the threshold, ordered by
ascending distance (i.e. descending similarity), limited to `top_k`. -/
def similarity_search (dist : List ℚ → List ℚ → ℚ) (db : DB) (qe : List ℚ)
    (top_k : Nat) (threshold : ℚ) : List Row :=
  let rows := db.documents.filterMap (fun d =>
    match d.embedding with
    | none => none
    | some e =>
        let similarity := 1 - dist e qe
        if threshold ≤ similarity then some ⟨d.id, d.content, d.metadata, similarity⟩
        else none)
  (rows.mergeSort (fun a b => decide (b.similarity ≤ a.similarity))).take top_k

/-- `GraphRAG._get_graph_context`: Cypher lookup of the retrieved doc ids,
`LIMIT 20`; an empty row set or a raised graph-store error both yield `None`. -/
def get_graph_context (graphStore : List Nat → Except String (List GraphRow))
    (documents : List Row) : Option GraphContext :=
  match graphStore (documents.map (·.id)) with
  | .error _ => none
  | .ok matched =>
      let graph_data := matched.take 20
      if graph_data.isEmpty then none
      else
        some ⟨graph_data.length,
              graph_data.any (fun row => row.rel_type.isSome),
              graph_data.length⟩

/-- Python `round(q, 4)` on the similarity read back from SQL. -/
def round4 (q : ℚ) : ℚ := (round (q * 10000) : ℤ) / 10000

/-- Python `f"{q:.2%}"`: the similarity rendered as a percentage with two
decimal places. -/
def formatPercent (q : ℚ) : String :=
  let scaled : ℤ := round (q * 10000)
  let a := scaled.natAbs
  (if scaled < 0 then "-" else "") ++ toString (a / 100) ++ "." ++
    (if a % 100 < 10 then "0" else "") ++ toString (a % 100) ++ "%"

/-- The `source_info` piece of a context entry: empty when the metadata dict is
falsy, otherwise the `source` value with fallback `"неизвестно"`. -/
def source_info (metadata : MD) : String :=
  if metadata.isEmpty then ""
  else " (Источник: " ++ mdGet metadata "source" "неизвестно" ++ ")"

/-- One numbered entry appended to `context_parts` in `_build_context`. -/
def context_entry (idx : Nat) (r : Row) : String :=
  "\n[Документ " ++ toString idx ++ " | Релевантность: " ++
    formatPercent r.similarity ++ "]" ++ source_info r.metadata ++ ":\n" ++
    r.content ++ "\n"

/-- The `for idx, doc in enumerate(documents, 1)` loop of `_build_context`. -/
def context_entries (idx : Nat) : List Row → List String
  | [] => []
  | r :: rest => context_entry idx r :: context_entries (idx + 1) rest

/-- The one-line graph summary appended by `_build_context`. -/
def graph_summary (g : GraphContext) : String :=
  "\n[Графовый контекст]: Найдено " ++ toString g.nodes_found ++
    " связанных узлов в графе знаний."

/-- The `context_parts` list of `_build_context`. -/
def build_context_parts (documents : List Row)
    (graph_context : Option GraphContext) : List String :=
  ("Контекст из базы знаний:\n" :: context_entries 1 documents) ++
    (match graph_context with
     | some g => if 0 < g.nodes_found then [graph_summary g] else []
     | none => [])

/-- `GraphRAG._build_context`: `"\n".join(context_parts)`. -/
def build_context (documents : List Row)
    (graph_context : Option GraphContext) : String :=
  joinSep "\n" (build_context_parts documents graph_context)

/-- `GraphRAG._generate_answer`: a successful completion is stripped and
returned; a raised completion error is caught and turned into the apologetic
answer string. -/
def generate_answer (gen : String → String → Except String String)
    (question context : String) : String :=
  match gen question context with
  | .ok answer => pyStrip answer
  | .error e => "К сожалению, произошла ошибка при генерации ответа: " ++ e

/-- The fixed no-results answer of `GraphRAG.query`. -/
def no_relevant_answer : String :=
  "К сожалению, я не нашел релевантной информации в базе знаний для ответа на ваш вопрос."

/-- `GraphRAG.query`.  `embedRes` is the embedding backend's outcome for the
question, `gen` the chat-completion backend, `graphStore` the graph lookup.
The `llm_called` flag records whether the chat-completion call was issued. -/
def query (dims : Nat) (dist : List ℚ → List ℚ → ℚ)
    (embedRes : Except String (List ℚ))
    (gen : String → String → Except String String)
    (graphStore : List Nat → Except String (List GraphRow))
    (db : DB) (question : String) (top_k : Nat) (use_graph : Bool)
    (similarity_threshold : ℚ) : Except String QueryOutput :=
  match get_embedding dims embedRes with
  | .error e => .error e
  | .ok (question_embedding, _dimWarn) =>
      let documents := similarity_search dist db question_embedding top_k similarity_threshold
      if documents.isEmpty then
        .ok ⟨⟨no_relevant_answer, [], none⟩, false⟩
      else
        let graph_context :=
          if use_graph then get_graph_context graphStore documents else none
        let context := build_context documents graph_context
        let answer := generate_answer gen question context
        .ok ⟨⟨answer,
              documents.map (fun doc =>
                ⟨doc.id, pyTake doc.content 300, round4 doc.similarity, doc.metadata⟩),
              graph_context⟩,
             true⟩

/-- `GraphRAG.delete_document`: `DELETE FROM documents WHERE id = :id`; zero
affected rows raise, otherwise the deletion is committed. -/
def delete_document (db : DB) (doc_id : Nat) : DB × Except String Unit :=
  let remaining := db.documents.filter (fun d => d.id != doc_id)
  if remaining.length = db.documents.length then
    (db, .error ("Документ с ID " ++ toString doc_id ++ " не найден"))
  else
    ({ db with documents := remaining }, .ok ())

end GraphRAG

namespace LightRAG

/-- The keyword list of `lmstudio_completion_func` in
`lightrag-service/app.py` (with its duplicated `"entity"`). -/
def extraction_keywords : List String :=
  ["extract", "entity", "relation", "entity", "relationship", "knowledge"]

/-- The strictness directive appended to extraction-looking system prompts. -/
def strict_directive : String :=
  "\n\nКРИТИЧЕСКИ ВАЖНО: " ++
  "Извлекайте ТОЛЬКО информацию, которая ЯВНО и ДОСЛОВНО присутствует в предоставленном тексте. " ++
  "НЕ используйте ваши знания из обучающих данных. " ++
  "НЕ добавляйте информацию, которой нет в тексте. " ++
  "НЕ придумывайте факты, события или отношения. " ++
  "Если информация отсутствует в тексте, НЕ извлекайте её."

/-- The `strict_system_prompt` computation of `lmstudio_completion_func`,
applied to a provided (truthy) system prompt. -/
def strict_system_prompt (system_prompt : String) : String :=
  let prompt_lower := pyLower system_prompt
  if extraction_keywords.any (fun keyword => containsSub keyword prompt_lower) then
    system_prompt ++ strict_directive
  else
    system_prompt

end LightRAG

/-- The extraction keyword list exactly as the claim states it (the code's
literal additionally repeats `"entity"`, which does not change the test);
kept separate so the code's behaviour can be compared against it. -/
def spec_extraction_keywords : List String :=
  ["extract", "entity", "relation", "relationship", "knowledge"]

/-- A degenerate cosine-distance stub for concrete test stores: every pair of
vectors is at distance `0`, i.e. similarity `1`. -/
def distZero : List ℚ → List ℚ → ℚ := fun _ _ => 0

/-- A store holding one embedded document with id `1`, content `"x"` and empty
metadata. -/
def dbOne : DB := ⟨[⟨1, "x", some [0, 0], []⟩], 2, [], []⟩

/-- The empty store. -/
def dbEmpty : DB := ⟨[], 1, [], []⟩

/-! ### Helper lemmas: substring occurrence, filtering, rounding -/

theorem containsSub_of_parts {n h : String} {a b : List Char}
    (hd : h.data = a ++ n.data ++ b) : containsSub n h = true := by
  unfold containsSub
  rw [List.any_eq_true]
  refine ⟨n.data ++ b, ?_, ?_⟩
  · rw [List.mem_tails]
    exact ⟨a, by rw [hd, List.append_assoc]⟩
  · rw [ List.isPrefixOf_iff_prefix]
    exact ⟨b, rfl⟩

theorem parts_of_containsSub {n h : String} (hc : containsSub n h = true) :
    ∃ a b : List Char, h.data = a ++ n.data ++ b := by
  unfold containsSub at hc
  rw [List.any_eq_true] at hc
  obtain ⟨t, ht, hp⟩ := hc
  rw [List.mem_tails] at ht
  obtain ⟨a, ha⟩ := ht
  rw [ List.isPrefixOf_iff_prefix] at hp
  obtain ⟨b, hb⟩ := hp
  exact ⟨a, b, by rw [← ha, ← hb, List.append_assoc]⟩

theorem containsSub_refl (s : String) : containsSub s s = true :=
  containsSub_of_parts (a := []) (b := []) (by simp)

theorem containsSub_append_left {n h : String} (t : String)
    (hc : containsSub n h = true) : containsSub n (h ++ t) = true := by
  obtain ⟨a, b, hab⟩ := parts_of_containsSub hc
  exact containsSub_of_parts (a := a) (b := b ++ t.data)
    (by rw [String.data_append, hab]; simp)

theorem containsSub_append_right {n h : String} (t : String)
    (hc : containsSub n h = true) : containsSub n (t ++ h) = true := by
  obtain ⟨a, b, hab⟩ := parts_of_containsSub hc
  exact containsSub_of_parts (a := t.data ++ a) (b := b)
    (by rw [String.data_append, hab]; simp)

theorem containsSub_trans {a b c : String} (hab : containsSub a b = true)
    (hbc : containsSub b c = true) : containsSub a c = true := by
  obtain ⟨x, y, hxy⟩ := parts_of_containsSub hab
  obtain ⟨u, v, huv⟩ := parts_of_containsSub hbc
  exact containsSub_of_parts (a := u ++ x) (b := y ++ v)
    (by rw [huv, hxy]; simp)

theorem containsSub_joinSep (sep : String) {x : String} :
    ∀ {l : List String}, x ∈ l → containsSub x (joinSep sep l) = true := by
  intro l
  induction l with
  | nil => intro h; cases h
  | cons y ys ih =>
      intro h
      cases ys with
      | nil =>
          rcases List.mem_cons.mp h with h1 | h1
          · subst h1; exact containsSub_refl x
          · cases h1
      | cons z zs =>
          rcases List.mem_cons.mp h with h1 | h1
          · subst h1
            exact containsSub_append_left _ (containsSub_refl x)
          · have hx := ih h1
            have : containsSub x (sep ++ joinSep sep (z :: zs)) = true :=
              containsSub_append_right sep hx
            exact containsSub_append_right y this

theorem context_entries_mem {l : List Row} :
    ∀ {start i : Nat} {r : Row}, l[i]? = some r →
      GraphRAG.context_entry (start + i) r ∈ GraphRAG.context_entries start l := by
  induction l with
  | nil => intro start i r h; simp at h
  | cons x xs ih =>
      intro start i r h
      cases i with
      | zero =>
          simp only [List.getElem?_cons_zero, Option.some.injEq] at h
          subst h
          simp [GraphRAG.context_entries]
      | succ n =>
          simp only [List.getElem?_cons_succ] at h
          have hx : GraphRAG.context_entry (start + 1 + n) r ∈
              GraphRAG.context_entries (start + 1) xs := ih h
          have harith : start + 1 + n = start + (n + 1) := by omega
          rw [harith] at hx
          simp [GraphRAG.context_entries, hx]

theorem length_filter_eq_imp {α : Type} (p : α → Bool) :
    ∀ l : List α, (l.filter p).length = l.length → ∀ a ∈ l, p a = true := by
  intro l
  induction l with
  | nil => intro _ a ha; cases ha
  | cons x xs ih =>
      intro h a ha
      by_cases hx : p x = true
      · rw [List.filter_cons_of_pos hx] at h
        simp only [List.length_cons, Nat.add_right_cancel_iff] at h
        rcases List.mem_cons.mp ha with h1 | h1
        · subst h1; exact hx
        · exact ih h a h1
      · rw [List.filter_cons_of_neg hx] at h
        have hle := List.length_filter_le p xs
        simp only [List.length_cons] at h
        omega

theorem round4_mono {a b : ℚ} (h : a ≤ b) : GraphRAG.round4 a ≤ GraphRAG.round4 b := by
  unfold GraphRAG.round4
  have hr : round (a * 10000) ≤ round (b * 10000) := by
    rw [round_eq, round_eq]
    exact Int.floor_mono (by linarith)
  have : ((round (a * 10000) : ℤ) : ℚ) ≤ ((round (b * 10000) : ℤ) : ℚ) := by
    exact_mod_cast hr
  linarith

/-! ### Concrete evaluations of the retrieval pipeline on the test stores -/

theorem similarity_search_dbOne (top_k : Nat) :
    GraphRAG.similarity_search distZero dbOne [0, 0] (top_k + 1) 0 =
      [⟨1, "x", [], 1⟩] := by
  unfold GraphRAG.similarity_search dbOne distZero
  norm_num [List.filterMap, List.mergeSort]

theorem similarity_search_dbEmpty (dist : List ℚ → List ℚ → ℚ) (qe : List ℚ)
    (top_k : Nat) (t : ℚ) :
    GraphRAG.similarity_search dist dbEmpty qe top_k t = [] := by
  unfold GraphRAG.similarity_search dbEmpty
  simp [List.mergeSort]

theorem round4_one : GraphRAG.round4 1 = 1 := by
  unfold GraphRAG.round4
  norm_num [round_eq]

/-! ### Claims -/

/-- Claim C2: whenever the similarity search returns zero documents satisfying
the threshold, `query` returns the fixed no-relevant-information answer, an
empty `sources` list and a null `graph_context`, and the chat-completion (LLM)
backend is not called. -/
theorem c2_empty_search_short_circuits (dims : Nat)
    (dist : List ℚ → List ℚ → ℚ) (emb : List ℚ)
    (gen : String → String → Except String String)
    (graphStore : List Nat → Except String (List GraphRow))
    (db : DB) (question : String) (top_k : Nat) (use_graph : Bool) (t : ℚ)
    (hsearch : GraphRAG.similarity_search dist db emb top_k t = []) :
    GraphRAG.query dims dist (.ok emb) gen graphStore db question top_k use_graph t =
      .ok ⟨⟨GraphRAG.no_relevant_answer, [], none⟩, false⟩ := by
  unfold GraphRAG.query GraphRAG.get_embedding
  simp [hsearch]

/-- Claim C2, witness: spec scenario — empty document store, query `"anything"`
with threshold `1/2` yields the fixed answer, no sources, null graph context,
and no LLM call. -/
theorem c2_witness :
    GraphRAG.query 2 distZero (.ok [0, 0]) (fun _ _ => .ok "unused")
      (fun _ => .ok []) dbEmpty "anything" 5 true (1/2) =
      .ok ⟨⟨GraphRAG.no_relevant_answer, [], none⟩, false⟩ :=
  c2_empty_search_short_circuits 2 distZero [0, 0] (fun _ _ => .ok "unused")
    (fun _ => .ok []) dbEmpty "anything" 5 true (1/2)
    (similarity_search_dbEmpty distZero [0, 0] 5 (1/2))

/-- Claim C3: if graph-node creation raises, ingest with non-empty content
still succeeds — the exception is swallowed, the document row is committed
(and only it), and the fresh document id is returned. -/
theorem c3_graph_failure_nonfatal (dims : Nat) (emb : List ℚ) (db : DB)
    (content : String) (metadata : Option MD) (hc : content ≠ "") :
    GraphRAG.ingest_document dims (.ok emb) true db content metadata =
      ({ db with
          documents := db.documents ++
            [⟨db.nextId, content, some emb, metadata.getD []⟩],
          nextId := db.nextId + 1 },
       .ok db.nextId) := by
  unfold GraphRAG.ingest_document GraphRAG.get_embedding
  simp

/-- Claim C3, witness: spec scenario — the graph store fails on
`_create_graph_nodes`, yet ingest returns id `1` and commits the document. -/
theorem c3_witness :
    ("Machine learning is a branch of AI" : String) ≠ "" ∧
    GraphRAG.ingest_document 2 (.ok [0, 0]) true dbEmpty
        "Machine learning is a branch of AI" (some [("source", "textbook")]) =
      (⟨[⟨1, "Machine learning is a branch of AI", some [0, 0],
          [("source", "textbook")]⟩], 2, [], []⟩,
       .ok 1) :=
  ⟨by decide,
   c3_graph_failure_nonfatal 2 [0, 0] dbEmpty
     "Machine learning is a branch of AI" (some [("source", "textbook")])
     (by decide)⟩

/-- Claim C4: if the embedding call fails, ingest aborts with the embedding
error and no partial state is persisted: the store (documents, graph nodes,
id sequence) is exactly the one before the call. -/
theorem c4_embedding_failure_aborts (dims : Nat) (e : String)
    (graphFail : Bool) (db : DB) (content : String) (metadata : Option MD) :
    GraphRAG.ingest_document dims (.error e) graphFail db content metadata =
      (db, .error ("Не удалось получить эмбеддинг: " ++ e)) := rfl

/-- Claim C9: an embedding whose length differs from the configured dimension
triggers the mismatch warning, but the embedding is still returned and ingest
still succeeds with the fresh document id. -/
theorem c9_dimension_mismatch_is_warning (dims : Nat) (emb : List ℚ)
    (graphFail : Bool) (db : DB) (content : String) (metadata : Option MD)
    (h : emb.length ≠ dims) :
    GraphRAG.get_embedding dims (.ok emb) = .ok (emb, true) ∧
    (GraphRAG.ingest_document dims (.ok emb) graphFail db content metadata).2 =
      .ok db.nextId := by
  constructor
  · unfold GraphRAG.get_embedding
    simp [h]
  · unfold GraphRAG.ingest_document GraphRAG.get_embedding
    cases graphFail <;> simp

/-- Claim C9, witness: a 3-component embedding against configured dimension 2
is returned with the warning flag set, and ingest still succeeds. -/
theorem c9_witness :
    ([(0 : ℚ), 0, 0].length ≠ 2) ∧
    GraphRAG.get_embedding 2 (.ok [(0 : ℚ), 0, 0]) = .ok ([(0 : ℚ), 0, 0], true) ∧
    (GraphRAG.ingest_document 2 (.ok [(0 : ℚ), 0, 0]) false dbEmpty "x" none).2 =
      .ok dbEmpty.nextId :=
  ⟨by decide,
   c9_dimension_mismatch_is_warning 2 [(0 : ℚ), 0, 0] false dbEmpty "x" none
     (by decide)⟩

/-- Claim C7: `delete_document` raises the explicit not-found error and leaves
the store untouched when no stored document carries the id, and commits the
deletion when one does. -/
theorem c7_delete_document_explicit (db : DB) (doc_id : Nat) :
    ((∀ d ∈ db.documents, d.id ≠ doc_id) →
        GraphRAG.delete_document db doc_id =
          (db, .error ("Документ с ID " ++ toString doc_id ++ " не найден"))) ∧
    ((∃ d ∈ db.documents, d.id = doc_id) →
        (GraphRAG.delete_document db doc_id).2 = .ok () ∧
        (GraphRAG.delete_document db doc_id).1.documents =
          db.documents.filter (fun d => d.id != doc_id)) := by
  constructor
  · intro hall
    unfold GraphRAG.delete_document
    have hfe : db.documents.filter (fun d => d.id != doc_id) = db.documents :=
      List.filter_eq_self.mpr (fun d hd => by
        simp only [bne_iff_ne, ne_eq]
        exact hall d hd)
    rw [if_pos (by rw [hfe])]
  · rintro ⟨d, hd, hid⟩
    unfold GraphRAG.delete_document
    have hne : (db.documents.filter (fun d => d.id != doc_id)).length ≠
        db.documents.length := by
      intro heq
      have := length_filter_eq_imp (fun d => d.id != doc_id) db.documents heq d hd
      simp only [bne_iff_ne, ne_eq] at this
      exact this hid
    rw [if_neg hne]
    exact ⟨rfl, rfl⟩

/-- Claim C7, witness: deleting id `7` from the empty store raises the
not-found error; deleting id `1` from the one-document store commits and
removes the row. -/
theorem c7_witness :
    GraphRAG.delete_document dbEmpty 7 =
      (dbEmpty, .error ("Документ с ID " ++ toString 7 ++ " не найден")) ∧
    ((GraphRAG.delete_document dbOne 1).2 = .ok () ∧
      (GraphRAG.delete_document dbOne 1).1.documents =
        dbOne.documents.filter (fun d => d.id != 1)) :=
  ⟨(c7_delete_document_explicit dbEmpty 7).1 (by intro d hd; cases hd),
   (c7_delete_document_explicit dbOne 1).2
     ⟨⟨1, "x", some [0, 0], []⟩, by simp [dbOne], rfl⟩⟩

/-- Claim C10: for every query call that returns, the `graph_context` field is
either null or a summary whose `nodes_found` lies between 1 and 20 (the
Cypher lookup is capped at 20 rows and an empty row set yields null), whose
`sample_nodes` equals `nodes_found`, and whose `has_relationships` is a
boolean. -/
theorem c10_graph_context_invariant (dims : Nat)
    (dist : List ℚ → List ℚ → ℚ) (embedRes : Except String (List ℚ))
    (gen : String → String → Except String String)
    (graphStore : List Nat → Except String (List GraphRow))
    (db : DB) (question : String) (top_k : Nat) (use_graph : Bool) (t : ℚ)
    (out : QueryOutput)
    (h : GraphRAG.query dims dist embedRes gen graphStore db question top_k
        use_graph t = .ok out) :
    out.result.graph_context = none ∨
      ∃ gc, out.result.graph_context = some gc ∧
        1 ≤ gc.nodes_found ∧ gc.nodes_found ≤ 20 ∧
        gc.sample_nodes = gc.nodes_found ∧
        (gc.has_relationships = true ∨ gc.has_relationships = false) := by
  unfold GraphRAG.query at h
  cases embedRes with
  | error e => simp [GraphRAG.get_embedding] at h
  | ok emb =>
      simp only [GraphRAG.get_embedding] at h
      by_cases hempty :
          (GraphRAG.similarity_search dist db emb top_k t).isEmpty = true
      · rw [if_pos hempty] at h
        obtain rfl : (⟨⟨GraphRAG.no_relevant_answer, [], none⟩, false⟩ :
            QueryOutput) = out := by
          simpa using h
        exact Or.inl rfl
      · rw [if_neg hempty] at h
        obtain rfl :
            (⟨⟨_, _, if use_graph then
                GraphRAG.get_graph_context graphStore
                  (GraphRAG.similarity_search dist db emb top_k t)
              else none⟩, true⟩ : QueryOutput) = out := by
          simpa using h
        simp only
        cases use_graph with
        | false => exact Or.inl (by simp)
        | true =>
            rw [if_pos rfl]
            unfold GraphRAG.get_graph_context
            cases hgs : graphStore ((GraphRAG.similarity_search dist db emb
                top_k t).map (·.id)) with
            | error e => exact Or.inl rfl
            | ok matched =>
                dsimp only
                by_cases hgd : (matched.take 20).isEmpty = true
                · rw [if_pos hgd]
                  exact Or.inl rfl
                · rw [if_neg hgd]
                  refine Or.inr ⟨_, rfl, ?_, ?_, rfl, ?_⟩
                  · have hne2 : matched.take 20 ≠ [] := by
                      simpa [List.isEmpty_iff] using hgd
                    show 1 ≤ (matched.take 20).length
                    exact List.length_pos.mpr hne2
                  · exact List.length_take_le 20 matched
                  · cases (matched.take 20).any (fun row => row.rel_type.isSome)
                    · exact Or.inr rfl
                    · exact Or.inl rfl

/-- Concrete full run of `query` on the one-document store with a succeeding
LLM and a graph lookup returning a single related row. -/
theorem query_dbOne_ok :
    GraphRAG.query 2 distZero (.ok [0, 0]) (fun _ _ => .ok " ans ")
      (fun _ => .ok [⟨some "REL"⟩]) dbOne "q" 5 true 0 =
      .ok ⟨⟨"ans", [⟨1, "x", 1, []⟩], some ⟨1, true, 1⟩⟩, true⟩ := by
  have hss : GraphRAG.similarity_search distZero dbOne [0, 0] 5 0 =
      [⟨1, "x", [], 1⟩] := similarity_search_dbOne 4
  have hstrip : pyStrip " ans " = "ans" := by decide
  simp only [GraphRAG.query, GraphRAG.get_embedding, hss, hstrip,
    GraphRAG.get_graph_context, GraphRAG.generate_answer, round4_one,
    List.isEmpty_cons, List.map_cons, List.map_nil, List.take,
    List.any_cons, List.any_nil, Option.isSome_some, Bool.or_true,
    Bool.true_or, if_true, if_false]
  simp [pyTake]

/-- Claim C10, witness: a run whose graph context is `some ⟨1, true, 1⟩`
instantiates the invariant, with the short-circuit case exercised through the
`none` disjunct on the empty store. -/
theorem c10_witness :
    ((⟨⟨"ans", [⟨1, "x", 1, []⟩], some ⟨1, true, 1⟩⟩, true⟩ :
        QueryOutput).result.graph_context = none ∨
      ∃ gc, (⟨⟨"ans", [⟨1, "x", 1, []⟩], some ⟨1, true, 1⟩⟩, true⟩ :
          QueryOutput).result.graph_context = some gc ∧
        1 ≤ gc.nodes_found ∧ gc.nodes_found ≤ 20 ∧
        gc.sample_nodes = gc.nodes_found ∧
        (gc.has_relationships = true ∨ gc.has_relationships = false)) :=
  c10_graph_context_invariant 2 distZero (.ok [0, 0]) (fun _ _ => .ok " ans ")
    (fun _ => .ok [⟨some "REL"⟩]) dbOne "q" 5 true 0
    ⟨⟨"ans", [⟨1, "x", 1, []⟩], some ⟨1, true, 1⟩⟩, true⟩ query_dbOne_ok

/-- Helper: the duplicated `"entity"` in the code's keyword list does not
change the `any` test against the five-keyword list the spec names. -/
theorem keywords_any_eq (f : String → Bool) :
    LightRAG.extraction_keywords.any f = spec_extraction_keywords.any f := by
  cases h : f "entity" <;>
    simp [LightRAG.extraction_keywords, spec_extraction_keywords, h]

/-- Claim C8: for a provided system prompt, the strict extraction directive is
appended exactly when the lowercased prompt contains one of the extraction
keywords `extract`, `entity`, `relation`, `relationship`, `knowledge`;
otherwise the prompt passes through unchanged. -/
theorem c8_strictness_appended_iff (sp : String) (hsp : sp ≠ "") :
    ((spec_extraction_keywords.any fun k => containsSub k (pyLower sp)) = true →
        LightRAG.strict_system_prompt sp = sp ++ LightRAG.strict_directive ∧
        LightRAG.strict_system_prompt sp ≠ sp) ∧
    ((spec_extraction_keywords.any fun k => containsSub k (pyLower sp)) = false →
        LightRAG.strict_system_prompt sp = sp) := by
  have hform : LightRAG.strict_system_prompt sp =
      if (spec_extraction_keywords.any fun k => containsSub k (pyLower sp)) = true
      then sp ++ LightRAG.strict_directive else sp := by
    unfold LightRAG.strict_system_prompt
    simp only [keywords_any_eq]
  rw [hform]
  constructor
  · intro hkw
    rw [if_pos hkw]
    refine ⟨rfl, ?_⟩
    intro heq
    have hlen := congrArg String.length heq
    rw [String.length_append] at hlen
    have hd : 0 < LightRAG.strict_directive.length := by decide
    omega
  · intro hkw
    rw [if_neg (by simp [hkw])]

/-- Claim C8, witness: an extraction-looking prompt gets the directive
appended (and is changed); a generation prompt passes through unchanged. -/
theorem c8_witness :
    (LightRAG.strict_system_prompt "Extract entities from the text." =
        "Extract entities from the text." ++ LightRAG.strict_directive ∧
      LightRAG.strict_system_prompt "Extract entities from the text." ≠
        "Extract entities from the text.") ∧
    LightRAG.strict_system_prompt "Ты - полезный ассистент." =
      "Ты - полезный ассистент." :=
  ⟨(c8_strictness_appended_iff "Extract entities from the text."
      (by decide)).1 (by decide),
   (c8_strictness_appended_iff "Ты - полезный ассистент."
      (by decide)).2 (by decide)⟩

/-- Helper: the similarity search never returns more rows than `top_k`. -/
theorem similarity_search_length_le (dist : List ℚ → List ℚ → ℚ) (db : DB)
    (qe : List ℚ) (top_k : Nat) (t : ℚ) :
    (GraphRAG.similarity_search dist db qe top_k t).length ≤ top_k := by
  unfold GraphRAG.similarity_search
  exact List.length_take_le _ _

/-- Helper: every retrieved row passes the threshold and its similarity is
`1 - dist` for the embedding of some stored document. -/
theorem mem_similarity_search {dist : List ℚ → List ℚ → ℚ} {db : DB}
    {qe : List ℚ} {top_k : Nat} {t : ℚ} {r : Row}
    (h : r ∈ GraphRAG.similarity_search dist db qe top_k t) :
    t ≤ r.similarity ∧ ∃ d ∈ db.documents, ∃ e, d.embedding = some e ∧
      r.similarity = 1 - dist e qe := by
  unfold GraphRAG.similarity_search at h
  have h1 := List.mem_of_mem_take h
  have h2 := (List.mergeSort_perm _ _).mem_iff.mp h1
  rw [List.mem_filterMap] at h2
  obtain ⟨d, hd, hfd⟩ := h2
  cases he : d.embedding with
  | none => rw [he] at hfd; cases hfd
  | some e =>
      rw [he] at hfd
      dsimp only at hfd
      by_cases hth : t ≤ 1 - dist e qe
      · rw [if_pos hth] at hfd
        rw [Option.some.injEq] at hfd
        subst hfd
        exact ⟨hth, d, hd, e, he, rfl⟩
      · rw [if_neg hth] at hfd; cases hfd

/-- Helper: the similarity search result is sorted by descending similarity. -/
theorem similarity_search_sorted (dist : List ℚ → List ℚ → ℚ) (db : DB)
    (qe : List ℚ) (top_k : Nat) (t : ℚ) :
    (GraphRAG.similarity_search dist db qe top_k t).Pairwise
      (fun a b => b.similarity ≤ a.similarity) := by
  unfold GraphRAG.similarity_search
  have hs := @List.sorted_mergeSort Row
    (fun a b : Row => decide (b.similarity ≤ a.similarity))
    (fun a b c hab hbc => by
      simp only [decide_eq_true_eq] at hab hbc ⊢
      exact le_trans hbc hab)
    (fun a b => by
      simp only [Bool.or_eq_true, decide_eq_true_eq]
      exact le_total b.similarity a.similarity)
    ((DB.documents db).filterMap (fun d =>
      match d.embedding with
      | none => none
      | some e =>
          let similarity := 1 - dist e qe
          if t ≤ similarity then some ⟨d.id, d.content, d.metadata, similarity⟩
          else none))
  have hp := List.Pairwise.sublist (List.take_sublist top_k _) hs
  exact hp.imp (fun hab => by simpa using hab)

/-- Claim C5: a returning query with `top_k = k` and threshold `t` yields at
most `k` sources; each source comes from a retrieved row whose similarity,
computed as `1 - cosine distance` against a stored embedding, is at least
`t`; and the sources are ordered by descending (recorded) similarity. -/
theorem c5_sources_bounded_thresholded_sorted (dims : Nat)
    (dist : List ℚ → List ℚ → ℚ) (emb : List ℚ)
    (gen : String → String → Except String String)
    (graphStore : List Nat → Except String (List GraphRow))
    (db : DB) (question : String) (top_k : Nat) (use_graph : Bool) (t : ℚ)
    (out : QueryOutput)
    (h : GraphRAG.query dims dist (.ok emb) gen graphStore db question top_k
        use_graph t = .ok out) :
    out.result.sources.length ≤ top_k ∧
    (∀ s ∈ out.result.sources,
        ∃ r ∈ GraphRAG.similarity_search dist db emb top_k t,
          s = ⟨r.id, pyTake r.content 300, GraphRAG.round4 r.similarity,
               r.metadata⟩ ∧
          t ≤ r.similarity ∧
          ∃ d ∈ db.documents, ∃ e, d.embedding = some e ∧
            r.similarity = 1 - dist e emb) ∧
    out.result.sources.Pairwise (fun a b => b.similarity ≤ a.similarity) := by
  unfold GraphRAG.query at h
  simp only [GraphRAG.get_embedding] at h
  by_cases hempty :
      (GraphRAG.similarity_search dist db emb top_k t).isEmpty = true
  · rw [if_pos hempty] at h
    rw [Except.ok.injEq] at h
    subst h
    exact ⟨by simp, by simp, by simp⟩
  · rw [if_neg hempty] at h
    rw [Except.ok.injEq] at h
    subst h
    refine ⟨?_, ?_, ?_⟩
    · simpa using similarity_search_length_le dist db emb top_k t
    · intro s hs
      simp only [List.mem_map] at hs
      obtain ⟨r, hr, rfl⟩ := hs
      obtain ⟨hth, d, hd, e, he, hsim⟩ := mem_similarity_search hr
      exact ⟨r, hr, rfl, hth, d, hd, e, he, hsim⟩
    · simp only
      rw [List.pairwise_map]
      exact (similarity_search_sorted dist db emb top_k t).imp
        (fun hab => round4_mono hab)

/-- Claim C5, witness: the concrete one-document run instantiates all three
conjuncts (at most 5 sources, each thresholded at 0, descending order). -/
theorem c5_witness :
    ((⟨⟨"ans", [⟨1, "x", 1, []⟩], some ⟨1, true, 1⟩⟩, true⟩ :
        QueryOutput).result.sources.length ≤ 5) ∧
    (∀ s ∈ (⟨⟨"ans", [⟨1, "x", 1, []⟩], some ⟨1, true, 1⟩⟩, true⟩ :
        QueryOutput).result.sources,
        ∃ r ∈ GraphRAG.similarity_search distZero dbOne [0, 0] 5 0,
          s = ⟨r.id, pyTake r.content 300, GraphRAG.round4 r.similarity,
               r.metadata⟩ ∧
          (0 : ℚ) ≤ r.similarity ∧
          ∃ d ∈ dbOne.documents, ∃ e, d.embedding = some e ∧
            r.similarity = 1 - distZero e [0, 0]) ∧
    (⟨⟨"ans", [⟨1, "x", 1, []⟩], some ⟨1, true, 1⟩⟩, true⟩ :
        QueryOutput).result.sources.Pairwise
      (fun a b => b.similarity ≤ a.similarity) :=
  c5_sources_bounded_thresholded_sorted 2 distZero [0, 0]
    (fun _ _ => .ok " ans ") (fun _ => .ok [⟨some "REL"⟩]) dbOne "q" 5 true 0
    ⟨⟨"ans", [⟨1, "x", 1, []⟩], some ⟨1, true, 1⟩⟩, true⟩ query_dbOne_ok

/-- Claim C1, counterexample: with a failing LLM backend, `query` does NOT
raise — it returns a `QueryResult` whose sources are populated and whose
answer is the caught-error apology string, refuting the claim that the
failure surfaces to the caller as an error. -/
theorem c1_counterexample :
    GraphRAG.query 2 distZero (.ok [0, 0])
      (fun _ _ => .error "LLM backend down") (fun _ => .ok []) dbOne "q" 5
      false 0 =
      .ok ⟨⟨"К сожалению, произошла ошибка при генерации ответа: LLM backend down",
            [⟨1, "x", 1, []⟩], none⟩, true⟩ := by
  have hss : GraphRAG.similarity_search distZero dbOne [0, 0] 5 0 =
      [⟨1, "x", [], 1⟩] := similarity_search_dbOne 4
  simp only [GraphRAG.query, GraphRAG.get_embedding, hss,
    GraphRAG.generate_answer, round4_one, List.isEmpty_cons, List.map_cons,
    List.map_nil, if_false, Bool.false_eq_true]
  simp [pyTake]

/-- Claim C1, amended: when the chat-completion call fails, `query` does not
propagate the failure; `_generate_answer` catches it and `query` returns a
normal `QueryResult` whose answer is the fixed apology prefix followed by the
error text, with sources and graph context populated as usual. -/
theorem c1_generation_failure_caught (dims : Nat)
    (dist : List ℚ → List ℚ → ℚ) (emb : List ℚ)
    (gen : String → String → Except String String)
    (graphStore : List Nat → Except String (List GraphRow))
    (db : DB) (question : String) (top_k : Nat) (use_graph : Bool) (t : ℚ)
    (e : String)
    (hgen : ∀ q c, gen q c = Except.error e)
    (hne : GraphRAG.similarity_search dist db emb top_k t ≠ []) :
    GraphRAG.query dims dist (.ok emb) gen graphStore db question top_k
        use_graph t =
      .ok ⟨⟨"К сожалению, произошла ошибка при генерации ответа: " ++ e,
            (GraphRAG.similarity_search dist db emb top_k t).map
              (fun r => ⟨r.id, pyTake r.content 300,
                GraphRAG.round4 r.similarity, r.metadata⟩),
            if use_graph then
              GraphRAG.get_graph_context graphStore
                (GraphRAG.similarity_search dist db emb top_k t)
            else none⟩,
           true⟩ := by
  unfold GraphRAG.query
  simp only [GraphRAG.get_embedding]
  rw [if_neg (by simpa [List.isEmpty_iff] using hne)]
  unfold GraphRAG.generate_answer
  rw [hgen]

/-- Claim C1, witness for the amended statement: concrete failing-LLM run. -/
theorem c1_witness :
    GraphRAG.query 2 distZero (.ok [0, 0])
      (fun _ _ => .error "LLM backend down") (fun _ => .ok []) dbOne "q" 5
      true 0 =
      .ok ⟨⟨"К сожалению, произошла ошибка при генерации ответа: " ++
              "LLM backend down",
            (GraphRAG.similarity_search distZero dbOne [0, 0] 5 0).map
              (fun r => ⟨r.id, pyTake r.content 300,
                GraphRAG.round4 r.similarity, r.metadata⟩),
            GraphRAG.get_graph_context (fun _ => .ok [])
              (GraphRAG.similarity_search distZero dbOne [0, 0] 5 0)⟩,
           true⟩ :=
  c1_generation_failure_caught 2 distZero [0, 0]
    (fun _ _ => .error "LLM backend down") (fun _ => .ok []) dbOne "q" 5
    true 0 "LLM backend down" (fun _ _ => rfl)
    (by
      have hss : GraphRAG.similarity_search distZero dbOne [0, 0] 5 0 =
          [⟨1, "x", [], 1⟩] := similarity_search_dbOne 4
      rw [hss]
      simp)

/-- Helper: each enumerated entry occurs inside the joined context block. -/
theorem context_entry_contained {documents : List Row}
    {gc : Option GraphContext} {i : Nat} {r : Row}
    (h : documents[i]? = some r) :
    containsSub (GraphRAG.context_entry (1 + i) r)
      (GraphRAG.build_context documents gc) = true := by
  unfold GraphRAG.build_context
  apply containsSub_joinSep
  unfold GraphRAG.build_context_parts
  apply List.mem_append_left
  exact List.mem_cons_of_mem _ (context_entries_mem h)

/-- Helper: a context entry contains the document's full content. -/
theorem context_entry_contains_content (idx : Nat) (r : Row) :
    containsSub r.content (GraphRAG.context_entry idx r) = true := by
  apply containsSub_of_parts
    (a := ("\n[Документ " ++ toString idx ++ " | Релевантность: " ++
      GraphRAG.formatPercent r.similarity ++ "]" ++
      GraphRAG.source_info r.metadata ++ ":\n").data)
    (b := "\n".data)
  simp [GraphRAG.context_entry, String.data_append, List.append_assoc]

/-- Helper: a context entry contains the rendered similarity percentage. -/
theorem context_entry_contains_percent (idx : Nat) (r : Row) :
    containsSub (GraphRAG.formatPercent r.similarity)
      (GraphRAG.context_entry idx r) = true := by
  apply containsSub_of_parts
    (a := ("\n[Документ " ++ toString idx ++ " | Релевантность: ").data)
    (b := ("]" ++ GraphRAG.source_info r.metadata ++ ":\n" ++ r.content ++
      "\n").data)
  simp [GraphRAG.context_entry, String.data_append, List.append_assoc]

/-- Helper: with non-empty metadata, a context entry contains the source
annotation (the `source` value, or the `"неизвестно"` fallback). -/
theorem context_entry_contains_source (idx : Nat) (r : Row)
    (hmd : r.metadata.isEmpty = false) :
    containsSub (" (Источник: " ++ mdGet r.metadata "source" "неизвестно" ++ ")")
      (GraphRAG.context_entry idx r) = true := by
  have hsi : GraphRAG.source_info r.metadata =
      " (Источник: " ++ mdGet r.metadata "source" "неизвестно" ++ ")" := by
    unfold GraphRAG.source_info
    rw [if_neg (by simp [hmd])]
  apply containsSub_of_parts
    (a := ("\n[Документ " ++ toString idx ++ " | Релевантность: " ++
      GraphRAG.formatPercent r.similarity ++ "]").data)
    (b := (":\n" ++ r.content ++ "\n").data)
  simp [GraphRAG.context_entry, hsi, String.data_append, List.append_assoc]

/-- Claim C6, counterexample: for a retrieved document with empty metadata
(`source` key absent) the assembled context carries NO source annotation at
all — in particular the fallback `"неизвестно"` does not appear — refuting
the claim that an absent source key always yields the fallback; the full
content does appear. -/
theorem c6_counterexample :
    containsSub "Источник" (GraphRAG.build_context [⟨1, "x", [], 1⟩] none) =
      false ∧
    containsSub "неизвестно" (GraphRAG.build_context [⟨1, "x", [], 1⟩] none) =
      false ∧
    containsSub "x" (GraphRAG.build_context [⟨1, "x", [], 1⟩] none) = true := by
  have h1 : GraphRAG.formatPercent 1 = "100.00%" := by
    unfold GraphRAG.formatPercent
    rw [show round ((1 : ℚ) * 10000) = 10000 from by norm_num [round_eq]]
    decide
  have hctx : GraphRAG.build_context [⟨1, "x", [], 1⟩] none =
      "Контекст из базы знаний:\n\n\n[Документ 1 | Релевантность: 100.00%]:\nx\n" := by
    simp only [GraphRAG.build_context, GraphRAG.build_context_parts,
      GraphRAG.context_entries, GraphRAG.context_entry, GraphRAG.source_info,
      joinSep, h1]
    decide
  rw [hctx]
  refine ⟨by decide, by decide, by decide⟩

/-- Claim C6, amended: every retrieved document contributes its numbered
entry to the assembled context; the entry carries the document's similarity
percentage and full content; the source annotation (the `source` metadata
value, with fallback `"неизвестно"` when that key is absent) is emitted only
when the metadata mapping is non-empty — empty metadata yields no source
annotation at all; and the one-line graph summary follows whenever graph
context with a positive node count is present. -/
theorem c6_context_assembly_amended (documents : List Row)
    (gc : Option GraphContext) (i : Nat) (r : Row)
    (h : documents[i]? = some r) :
    containsSub (GraphRAG.context_entry (1 + i) r)
      (GraphRAG.build_context documents gc) = true ∧
    containsSub r.content (GraphRAG.build_context documents gc) = true ∧
    containsSub (GraphRAG.formatPercent r.similarity)
      (GraphRAG.build_context documents gc) = true ∧
    (r.metadata.isEmpty = false →
      containsSub
        (" (Источник: " ++ mdGet r.metadata "source" "неизвестно" ++ ")")
        (GraphRAG.build_context documents gc) = true) ∧
    (r.metadata.isEmpty = true → GraphRAG.source_info r.metadata = "") ∧
    (∀ g, gc = some g → 0 < g.nodes_found →
      containsSub (GraphRAG.graph_summary g)
        (GraphRAG.build_context documents gc) = true) := by
  have hentry : containsSub (GraphRAG.context_entry (1 + i) r)
      (GraphRAG.build_context documents gc) = true :=
    context_entry_contained h
  refine ⟨hentry, ?_, ?_, ?_, ?_, ?_⟩
  · exact containsSub_trans (context_entry_contains_content (1 + i) r) hentry
  · exact containsSub_trans (context_entry_contains_percent (1 + i) r) hentry
  · intro hmd
    exact containsSub_trans (context_entry_contains_source (1 + i) r hmd) hentry
  · intro hmd
    unfold GraphRAG.source_info
    rw [if_pos hmd]
  · intro g hgc hpos
    subst hgc
    unfold GraphRAG.build_context
    apply containsSub_joinSep
    unfold GraphRAG.build_context_parts
    apply List.mem_append_right
    simp [hpos]

/-- Claim C6, witness for the amended statement: one document with
`source = "doc1"` metadata and graph context `⟨2, false, 2⟩`. -/
theorem c6_witness :
    containsSub (GraphRAG.context_entry (1 + 0) ⟨1, "y", [("source", "doc1")], 1⟩)
      (GraphRAG.build_context [⟨1, "y", [("source", "doc1")], 1⟩]
        (some ⟨2, false, 2⟩)) = true ∧
    containsSub (Row.content ⟨1, "y", [("source", "doc1")], 1⟩)
      (GraphRAG.build_context [⟨1, "y", [("source", "doc1")], 1⟩]
        (some ⟨2, false, 2⟩)) = true ∧
    containsSub (GraphRAG.formatPercent
        (Row.similarity ⟨1, "y", [("source", "doc1")], 1⟩))
      (GraphRAG.build_context [⟨1, "y", [("source", "doc1")], 1⟩]
        (some ⟨2, false, 2⟩)) = true ∧
    ((Row.metadata ⟨1, "y", [("source", "doc1")], 1⟩).isEmpty = false →
      containsSub
        (" (Источник: " ++
          mdGet (Row.metadata ⟨1, "y", [("source", "doc1")], 1⟩) "source"
            "неизвестно" ++ ")")
        (GraphRAG.build_context [⟨1, "y", [("source", "doc1")], 1⟩]
          (some ⟨2, false, 2⟩)) = true) ∧
    ((Row.metadata ⟨1, "y", [("source", "doc1")], 1⟩).isEmpty = true →
      GraphRAG.source_info (Row.metadata ⟨1, "y", [("source", "doc1")], 1⟩) =
        "") ∧
    (∀ g, (some ⟨2, false, 2⟩ : Option GraphContext) = some g →
      0 < g.nodes_found →
      containsSub (GraphRAG.graph_summary g)
        (GraphRAG.build_context [⟨1, "y", [("source", "doc1")], 1⟩]
          (some ⟨2, false, 2⟩)) = true) :=
  c6_context_assembly_amended [⟨1, "y", [("source", "doc1")], 1⟩]
    (some ⟨2, false, 2⟩) 0 ⟨1, "y", [("source", "doc1")], 1⟩ rfl
